import Mathlib

/-
Verification of the ftserver request handling logic: a shallow embedding of
the message framer (sendMsg, recMsg), the directory enumerator (sendDir,
inDir), the transfer engine (sendFile and its chunked read loop) and the
command dispatcher (handleRequest) from ftserver.c, together with theorems
about the wire behaviour on the data connection.
-/

namespace FtServer

/-- Fixed buffer capacity (the constant BUFFER_SIZE = 500 in the source),
used for every framed message and as the fread block size in sendFile. -/
def BUFFER_SIZE : Nat := 500

/-- Process terminations performed through the error helper, which prints a
diagnostic and exits. Each constructor names one call site reachable from
handleRequest: the fopen failure check in sendFile and the negative write
check in the sendFile loop. -/
inductive Fatal where
  | openFileFailed
  | writeFailed
deriving DecidableEq

/-- Wire level output events on the data connection: a framed fixed size
message produced by sendMsg, or a raw file chunk produced by the plain write
call inside the sendFile loop. -/
inductive Out where
  | framed : List Char → Out
  | chunk : List Char → Out
deriving DecidableEq

/-- Filesystem state visible to one request: the result of opendir on the
working directory (none when opendir fails, some with the readdir entry
names otherwise), and for each file name the byte content obtained by
opening and reading it (none when fopen fails). -/
structure Fs where
  dirList : Option (List (List Char))
  fileContent : List Char → Option (List Char)

/-- Buffer of n zero bytes, modelling bzero on a buffer of size n. -/
def bzeroBuf (n : Nat) : List Char := List.replicate n (Char.ofNat 0)

/-- Effect of strcpy of msg into a buffer: the copied text followed by the
untouched remainder of the buffer. The terminating zero written by strcpy
lands on an already zero byte, since every buffer in this program is zeroed
immediately before the copy. -/
def strcpyInto (buf msg : List Char) : List Char := msg ++ List.drop msg.length buf

/-- Bytes put on the wire by one sendMsg call: the message copied by strcpy
into a buffer of BUFFER_SIZE bytes just cleared by bzero, after which the
whole buffer, all BUFFER_SIZE bytes of it, is written in one write call. -/
def sendMsgWire (msg : List Char) : List Char := strcpyInto (bzeroBuf BUFFER_SIZE) msg

/-- sendMsg terminates the process exactly when its write call returns a
negative result. -/
def sendMsgFatal (writeRes : Int) : Bool := writeRes < 0

/-- Buffer contents after one recMsg call that received the given bytes:
read deposits at most BUFFER_SIZE bytes at the front of a buffer just
cleared by bzero. -/
def recMsgBuf (data : List Char) : List Char :=
  List.take BUFFER_SIZE data ++ List.drop (List.take BUFFER_SIZE data).length (bzeroBuf BUFFER_SIZE)

/-- recMsg terminates the process exactly when its read call returns a
negative result. -/
def recMsgFatal (readRes : Int) : Bool := readRes < 0

/-- Trace of sendDir on the data connection: when opendir succeeds, one
framed message per readdir entry with a newline appended by strcat, then one
framed terminator message; when opendir fails, nothing at all is sent and
control simply returns. -/
def sendDir (fs : Fs) : List Out :=
  match fs.dirList with
  | some entries => entries.map (fun d => Out.framed (d ++ ['\n'])) ++ [Out.framed (("~done\n").toList)]
  | none => []

/-- Membership test of inDir: scans the readdir entries comparing each name
with strcmp, and reports the name absent when opendir fails, since the found
flag then stays zero. -/
def inDir (fs : Fs) (fileName : List Char) : Bool :=
  match fs.dirList with
  | some entries => entries.any (fun d => fileName == d)
  | none => false

/-- Chunk sequence produced by the read loop in sendFile, with an explicit
iteration budget. Each iteration freads up to BUFFER_SIZE bytes; a short
read, including a read of zero bytes at the very end, raises the end of file
flag that stops the loop, so a full read of exactly BUFFER_SIZE bytes is
followed by another iteration. -/
def fileChunksAux : Nat → List Char → List (List Char)
  | 0, _ => []
  | fuel + 1, content =>
    if content.length < BUFFER_SIZE then [content]
    else List.take BUFFER_SIZE content :: fileChunksAux fuel (List.drop BUFFER_SIZE content)

/-- Chunks written by sendFile for a file with the given content. The loop
performs one iteration per full BUFFER_SIZE block plus one final short read,
so a budget of length + 1 iterations always suffices; fileChunksAux_join and
fileChunksAux_count below justify the budget. -/
def fileChunks (content : List Char) : List (List Char) :=
  fileChunksAux (content.length + 1) content

/-- Run of sendFile: a fopen failure calls error and terminates the process;
otherwise every chunk read from the file is written to the data connection
in order. Write results are modelled as successful here; chunkWriteRun
refines the per write error check of the loop. -/
def sendFile (fs : Fs) (fileName : List Char) : List Out × Option Fatal :=
  match fs.fileContent fileName with
  | none => ([], some Fatal.openFileFailed)
  | some content => ((fileChunks content).map Out.chunk, none)

/-- Refinement of the error handling in the sendFile loop: wr i is the
result returned by the write call for chunk i. The loop exits the process
through error exactly when a write returns a negative count; any nonnegative
count, including one smaller than the number of bytes read, lets the loop
continue to the next chunk. -/
def chunkWriteRun : List (List Char) → (Nat → Int) → Option Fatal
  | [], _ => none
  | _ :: rest, wr =>
    if wr 0 < 0 then some Fatal.writeFailed
    else chunkWriteRun rest (fun i => wr (i + 1))

/-- Dispatch of handleRequest: strncmp with length 2 against the listing
token chooses the listing path, strncmp with length 5 against the no file
name sentinel chooses between the file path and the unknown command reply.
Returns the trace of data connection writes and the fatal exit if one
occurred. -/
def handleRequest (fs : Fs) (cmd : List Char) : List Out × Option Fatal :=
  if List.isPrefixOf (("-l").toList) cmd = true then
    (Out.framed (("dir\n").toList) :: sendDir fs, none)
  else if List.isPrefixOf (("%none").toList) cmd = false then
    if inDir fs cmd then
      (Out.framed (("fil\n").toList) :: (sendFile fs cmd).1, (sendFile fs cmd).2)
    else ([Out.framed (("nof\n").toList)], none)
  else ([Out.framed (("unk\n").toList)], none)

/-- Concatenating the chunks produced by the read loop reproduces the file
content exactly. -/
theorem fileChunksAux_join (fuel : Nat) (content : List Char)
    (h : content.length < fuel) :
    (fileChunksAux fuel content).flatten = content := by
  induction fuel generalizing content with
  | zero => omega
  | succ n ih =>
    rw [fileChunksAux]
    split
    · simp
    · rename_i hlen
      have hd : (List.drop BUFFER_SIZE content).length < n := by
        rw [List.length_drop]
        simp only [BUFFER_SIZE] at hlen ⊢
        omega
      simp only [List.flatten_cons, ih _ hd, List.take_append_drop]

/-- Every chunk produced by the read loop holds at most BUFFER_SIZE bytes. -/
theorem fileChunksAux_sizes (fuel : Nat) (content : List Char)
    (h : content.length < fuel) :
    ∀ x ∈ fileChunksAux fuel content, x.length ≤ BUFFER_SIZE := by
  induction fuel generalizing content with
  | zero => omega
  | succ n ih =>
    rw [fileChunksAux]
    split
    · intro x hx
      rw [List.mem_singleton] at hx
      subst hx
      omega
    · rename_i hlen
      intro x hx
      rw [List.mem_cons] at hx
      rcases hx with hx | hx
      · subst hx
        rw [List.length_take]
        omega
      · have hd : (List.drop BUFFER_SIZE content).length < n := by
          rw [List.length_drop]
          simp only [BUFFER_SIZE] at hlen ⊢
          omega
        exact ih _ hd x hx

/-- The read loop performs exactly length / BUFFER_SIZE + 1 iterations. -/
theorem fileChunksAux_count (fuel : Nat) (content : List Char)
    (h : content.length < fuel) :
    (fileChunksAux fuel content).length = content.length / BUFFER_SIZE + 1 := by
  induction fuel generalizing content with
  | zero => omega
  | succ n ih =>
    rw [fileChunksAux]
    split
    · rename_i hlen
      rw [List.length_singleton, Nat.div_eq_of_lt hlen]
    · rename_i hlen
      have hd : (List.drop BUFFER_SIZE content).length < n := by
        rw [List.length_drop]
        simp only [BUFFER_SIZE] at hlen ⊢
        omega
      rw [List.length_cons, ih _ hd, List.length_drop]
      have hb : BUFFER_SIZE ≤ content.length := by omega
      rw [Nat.div_eq_sub_div (by simp [BUFFER_SIZE]) hb]

/-- Concatenation of the sendFile chunks is the file content. -/
theorem fileChunks_join (content : List Char) :
    (fileChunks content).flatten = content :=
  fileChunksAux_join _ _ (Nat.lt_succ_self _)

/-- Every sendFile chunk holds at most BUFFER_SIZE bytes. -/
theorem fileChunks_sizes (content : List Char) :
    ∀ x ∈ fileChunks content, x.length ≤ BUFFER_SIZE :=
  fileChunksAux_sizes _ _ (Nat.lt_succ_self _)

/-- The sendFile loop iterates exactly length / BUFFER_SIZE + 1 times. -/
theorem fileChunks_count (content : List Char) :
    (fileChunks content).length = content.length / BUFFER_SIZE + 1 :=
  fileChunksAux_count _ _ (Nat.lt_succ_self _)


/-- Claim C8: for every finite file whose reads all succeed, the read and
write loop of sendFile terminates: it performs exactly
length / BUFFER_SIZE + 1 read and write iterations before returning. -/
theorem C8_loop_terminates (content : List Char) :
    (fileChunks content).length = content.length / BUFFER_SIZE + 1 :=
  fileChunks_count content

/-- Claim C1 (amended): requesting a file name that is present in the
working directory, begins with neither the listing token nor the no file
name sentinel, and can be opened, yields the file follows tag first, then
the file bytes in chunks of at most BUFFER_SIZE bytes whose concatenation is
exactly the file content, with no fatal exit; the orchestrator then closes
the data connection. -/
theorem C1_file_round_trip (entries : List (List Char))
    (fc : List Char → Option (List Char)) (name content : List Char)
    (h1 : List.isPrefixOf (("-l").toList) name = false)
    (h2 : List.isPrefixOf (("%none").toList) name = false)
    (h3 : name ∈ entries) (h4 : fc name = some content) :
    handleRequest ⟨some entries, fc⟩ name =
      (Out.framed (("fil\n").toList) :: (fileChunks content).map Out.chunk, none)
    ∧ (fileChunks content).flatten = content
    ∧ ∀ x ∈ fileChunks content, x.length ≤ BUFFER_SIZE := by
  refine ⟨?_, fileChunks_join content, fileChunks_sizes content⟩
  have hin : inDir ⟨some entries, fc⟩ name = true := by
    simp only [inDir, List.any_eq_true]
    exact ⟨name, h3, by simp⟩
  unfold handleRequest
  rw [if_neg (by simp only [h1]; exact Bool.false_ne_true), if_pos h2, if_pos hin]
  simp [sendFile, h4]

/-- Instance of Claim C1 on a directory holding one file with a five byte
content. -/
theorem C1_file_round_trip_witness :
    handleRequest ⟨[("ab.txt").toList], fun _ => some (("hello").toList)⟩ (("ab.txt").toList) =
      (Out.framed (("fil\n").toList) :: (fileChunks (("hello").toList)).map Out.chunk, none)
    ∧ (fileChunks (("hello").toList)).flatten = ("hello").toList
    ∧ ∀ x ∈ fileChunks (("hello").toList), x.length ≤ BUFFER_SIZE :=
  C1_file_round_trip _ _ _ _ (by decide) (by decide) (List.mem_singleton.mpr rfl) rfl

/-- Counterexample to Claim C1 as stated: the files named -l and %none1 are
present in the working directory, yet requesting them does not produce the
file follows tag, because the strncmp prefix tests of the dispatcher divert
them to the listing path and to the unknown command reply. -/
theorem C1_counterexample :
    (("-l").toList ∈ [("-l").toList, ("%none1").toList]
      ∧ (handleRequest ⟨some [("-l").toList, ("%none1").toList], fun _ => some (("x").toList)⟩
          (("-l").toList)).1.head? ≠ some (Out.framed (("fil\n").toList)))
    ∧ (("%none1").toList ∈ [("-l").toList, ("%none1").toList]
      ∧ (handleRequest ⟨some [("-l").toList, ("%none1").toList], fun _ => some (("x").toList)⟩
          (("%none1").toList)).1.head? ≠ some (Out.framed (("fil\n").toList))) := by
  decide

/-- Claim C2: every invocation of the dispatcher writes exactly one of the
four response tags as its first framed message on the data connection,
before any payload, and when that tag is the not found or the unknown
command reply nothing else is written at all. -/
theorem C2_one_tag_first (fs : Fs) (cmd : List Char) :
    ∃ t rest, (handleRequest fs cmd).1 = Out.framed t :: rest
      ∧ (t = ("dir\n").toList ∨ t = ("fil\n").toList ∨ t = ("nof\n").toList ∨ t = ("unk\n").toList)
      ∧ ((t = ("nof\n").toList ∨ t = ("unk\n").toList) → rest = []) := by
  unfold handleRequest
  split
  · exact ⟨_, _, rfl, Or.inl rfl,
      fun hc => by rcases hc with hc | hc <;> exact absurd hc (by decide)⟩
  · split
    · split
      · exact ⟨_, _, rfl, Or.inr (Or.inl rfl),
          fun hc => by rcases hc with hc | hc <;> exact absurd hc (by decide)⟩
      · exact ⟨_, _, rfl, Or.inr (Or.inr (Or.inl rfl)), fun _ => rfl⟩
    · exact ⟨_, _, rfl, Or.inr (Or.inr (Or.inr rfl)), fun _ => rfl⟩

/-- Instance of Claim C2 at the no file name sentinel on an empty
directory. -/
theorem C2_one_tag_first_witness :
    ∃ t rest, (handleRequest ⟨some [], fun _ => none⟩ (("%none").toList)).1 = Out.framed t :: rest
      ∧ (t = ("dir\n").toList ∨ t = ("fil\n").toList ∨ t = ("nof\n").toList ∨ t = ("unk\n").toList)
      ∧ ((t = ("nof\n").toList ∨ t = ("unk\n").toList) → rest = []) :=
  C2_one_tag_first _ _

/-- Claim C3 (amended): the dispatcher takes the listing path exactly when
the received command begins with the two characters of the listing token, a
prefix match rather than an exact token match; on that path it sends the
listing follows tag first and then the directory listing. -/
theorem C3_listing_dispatch (fs : Fs) (cmd : List Char) :
    ((handleRequest fs cmd).1.head? = some (Out.framed (("dir\n").toList))
        ↔ List.isPrefixOf (("-l").toList) cmd = true)
    ∧ (List.isPrefixOf (("-l").toList) cmd = true →
        handleRequest fs cmd = (Out.framed (("dir\n").toList) :: sendDir fs, none)) := by
  unfold handleRequest
  split
  · rename_i hp
    exact ⟨⟨fun _ => hp, fun _ => rfl⟩, fun _ => rfl⟩
  · rename_i hp
    refine ⟨⟨fun hh => ?_, fun hh => absurd hh hp⟩, fun hh => absurd hh hp⟩
    revert hh
    split
    · split
      · intro hh
        rw [List.head?_cons] at hh
        exact absurd hh (by decide)
      · intro hh
        rw [List.head?_cons] at hh
        exact absurd hh (by decide)
    · intro hh
      rw [List.head?_cons] at hh
      exact absurd hh (by decide)

/-- Instance of Claim C3 at the exact listing token. -/
theorem C3_listing_dispatch_witness :
    handleRequest ⟨some [("a.txt").toList], fun _ => none⟩ (("-l").toList) =
      (Out.framed (("dir\n").toList) :: sendDir ⟨some [("a.txt").toList], fun _ => none⟩, none) :=
  (C3_listing_dispatch _ _).2 (by decide)

/-- Counterexample to Claim C3 as stated: the command -lx is a different
token from the listing token -l, yet the dispatcher takes the listing path
for it, because strncmp compares only the first two characters. -/
theorem C3_counterexample :
    ("-lx").toList ≠ ("-l").toList
    ∧ (handleRequest ⟨some [("a.txt").toList], fun _ => none⟩ (("-lx").toList)).1.head?
        = some (Out.framed (("dir\n").toList)) := by
  decide

/-- Claim C4 (amended): a command that does not begin with the listing token
prefix, does not begin with the no file name sentinel prefix, and names a
file absent from the working directory listing receives exactly the file not
found tag and nothing else, with no fatal exit. -/
theorem C4_not_found_reply (entries : List (List Char))
    (fc : List Char → Option (List Char)) (cmd : List Char)
    (h1 : List.isPrefixOf (("-l").toList) cmd = false)
    (h2 : List.isPrefixOf (("%none").toList) cmd = false)
    (h3 : cmd ∉ entries) :
    handleRequest ⟨some entries, fc⟩ cmd = ([Out.framed (("nof\n").toList)], none) := by
  have hin : inDir ⟨some entries, fc⟩ cmd = false := by
    simp only [inDir, List.any_eq_false, beq_iff_eq]
    intro d hd hEq
    exact h3 (hEq ▸ hd)
  unfold handleRequest
  rw [if_neg (by simp only [h1]; exact Bool.false_ne_true), if_pos h2, if_neg (by simp [hin])]

/-- Instance of Claim C4 for a name outside a one entry directory. -/
theorem C4_not_found_reply_witness :
    handleRequest ⟨some [("a.txt").toList], fun _ => none⟩ (("b.txt").toList) =
      ([Out.framed (("nof\n").toList)], none) :=
  C4_not_found_reply _ _ _ (by decide) (by decide) (by decide)

/-- Counterexample to Claim C4 as stated: the commands -lx and %nonex are
not the listing command and not the no file name sentinel, and neither names
a file present in the directory, yet the first receives the listing reply
and the second the unknown command reply instead of the not found tag. -/
theorem C4_counterexample :
    (("-lx").toList ≠ ("-l").toList ∧ ("-lx").toList ≠ ("%none").toList
      ∧ ("-lx").toList ∉ [("a.txt").toList]
      ∧ handleRequest ⟨some [("a.txt").toList], fun _ => none⟩ (("-lx").toList)
          ≠ ([Out.framed (("nof\n").toList)], none))
    ∧ (("%nonex").toList ≠ ("-l").toList ∧ ("%nonex").toList ≠ ("%none").toList
      ∧ ("%nonex").toList ∉ [("a.txt").toList]
      ∧ handleRequest ⟨some [("a.txt").toList], fun _ => none⟩ (("%nonex").toList)
          ≠ ([Out.framed (("nof\n").toList)], none)) := by
  decide

/-- Claim C5: for the listing command the data connection trace is the
listing follows tag, then one framed message per directory entry with a
newline appended, then exactly one terminating framed done message at the
very end; the entry names sent are exactly the names readdir yielded for the
working directory. -/
theorem C5_listing_trace (entries : List (List Char))
    (fc : List Char → Option (List Char)) :
    handleRequest ⟨some entries, fc⟩ (("-l").toList) =
      (Out.framed (("dir\n").toList) ::
        (entries.map (fun d => Out.framed (d ++ ['\n']))
          ++ [Out.framed (("~done\n").toList)]), none)
    ∧ ∀ e : List Char,
        Out.framed (e ++ ['\n']) ∈ entries.map (fun d => Out.framed (d ++ ['\n'])) ↔ e ∈ entries := by
  refine ⟨rfl, ?_⟩
  intro e
  rw [List.mem_map]
  constructor
  · rintro ⟨d, hd, hEq⟩
    have hl : d ++ ['\n'] = e ++ ['\n'] := by injection hEq
    have hde : d = e := List.append_cancel_right hl
    exact hde ▸ hd
  · intro he
    exact ⟨e, he, rfl⟩

/-- Instance of Claim C5 on a two entry directory. -/
theorem C5_listing_trace_witness :
    handleRequest ⟨some [("a.txt").toList, ("b.txt").toList], fun _ => none⟩ (("-l").toList) =
      (Out.framed (("dir\n").toList) ::
        ([("a.txt").toList, ("b.txt").toList].map (fun d => Out.framed (d ++ ['\n']))
          ++ [Out.framed (("~done\n").toList)]), none) :=
  (C5_listing_trace _ _).1

/-- Claim C6 (amended): the sendFile loop terminates the process through
error exactly when some write call returns a negative result; a partial
write with a nonnegative result smaller than the number of bytes read is not
detected and the loop silently continues, and read errors are likewise
unchecked. -/
theorem C6_write_error_check (chunks : List (List Char)) (wr : Nat → Int) :
    chunkWriteRun chunks wr = none ↔ ∀ i < chunks.length, 0 ≤ wr i := by
  induction chunks generalizing wr with
  | nil => simp [chunkWriteRun]
  | cons c rest ih =>
    rw [chunkWriteRun]
    split
    · rename_i hneg
      constructor
      · intro h
        exact absurd h (Option.some_ne_none _)
      · intro h
        exact absurd (h 0 (Nat.succ_pos _)) (by omega)
    · rename_i hpos
      rw [ih]
      constructor
      · intro h i hi
        match i with
        | 0 => omega
        | j + 1 => exact h j (by simpa using hi)
      · intro h j hj
        exact h (j + 1) (by simpa using hj)

/-- Instance of Claim C6 where every write succeeds in full. -/
theorem C6_write_error_check_witness :
    chunkWriteRun (fileChunks (List.replicate 6 'h')) (fun _ => 500) = none :=
  (C6_write_error_check _ _).mpr (by decide)

/-- Counterexample to Claim C6 as stated: a six byte file is read as one six
byte chunk, the write call reports only three bytes transmitted, a partial
write, yet the loop completes without any fatal exit. -/
theorem C6_counterexample :
    (fileChunks (List.replicate 6 'h')).head? = some (List.replicate 6 'h')
    ∧ (0 : Int) ≤ 3 ∧ (3 : Int) < (List.replicate 6 'h').length
    ∧ chunkWriteRun (fileChunks (List.replicate 6 'h')) (fun _ => 3) = none := by
  decide

/-- Claim C7: the framer zero fills its buffer, copies the text into it and
writes exactly BUFFER_SIZE bytes in one write, so every framed message on
the wire is exactly BUFFER_SIZE bytes, the text followed by zero padding;
the receiver zero fills a same size buffer and reads at most BUFFER_SIZE
bytes into it in one read; both directions terminate the process exactly on
a negative transport result. -/
theorem C7_framer_contract (msg data : List Char) (w r : Int)
    (hm : msg.length ≤ BUFFER_SIZE) (hd : data.length ≤ BUFFER_SIZE) :
    (sendMsgWire msg).length = BUFFER_SIZE
    ∧ sendMsgWire msg = msg ++ List.replicate (BUFFER_SIZE - msg.length) (Char.ofNat 0)
    ∧ recMsgBuf data = data ++ List.replicate (BUFFER_SIZE - data.length) (Char.ofNat 0)
    ∧ (sendMsgFatal w = true ↔ w < 0)
    ∧ (recMsgFatal r = true ↔ r < 0) := by
  refine ⟨?_, ?_, ?_, ?_, ?_⟩
  · simp only [sendMsgWire, strcpyInto, bzeroBuf, List.length_append, List.length_drop,
      List.length_replicate]
    omega
  · simp [sendMsgWire, strcpyInto, bzeroBuf, List.drop_replicate]
  · simp [recMsgBuf, bzeroBuf, List.take_of_length_le hd, List.drop_replicate]
  · simp [sendMsgFatal]
  · simp [recMsgFatal]

/-- Instance of Claim C7 at the file follows tag and a two byte received
command. -/
theorem C7_framer_contract_witness :
    (sendMsgWire (("fil\n").toList)).length = BUFFER_SIZE
    ∧ sendMsgWire (("fil\n").toList) =
        ("fil\n").toList ++ List.replicate (BUFFER_SIZE - (("fil\n").toList).length) (Char.ofNat 0)
    ∧ recMsgBuf (("-l").toList) =
        ("-l").toList ++ List.replicate (BUFFER_SIZE - (("-l").toList).length) (Char.ofNat 0)
    ∧ (sendMsgFatal 500 = true ↔ (500 : Int) < 0)
    ∧ (recMsgFatal (-1) = true ↔ (-1 : Int) < 0) :=
  C7_framer_contract _ _ _ _ (by decide) (by decide)

/-- Claim C9: when opendir fails on the listing path, the listing follows
tag has already been sent, but no entry message and no terminating done
message follows, and the process does not terminate; the orchestrator then
closes the data connection with the listing unterminated. -/
theorem C9_listing_opendir_failure (fc : List Char → Option (List Char)) :
    handleRequest ⟨none, fc⟩ (("-l").toList) = ([Out.framed (("dir\n").toList)], none) :=
  rfl

/-- Claim C10: when opendir fails during the membership test, inDir reports
every name absent, so any file request, even one naming a file that exists
and could be opened, receives the file not found tag, with no fatal exit. -/
theorem C10_membership_opendir_failure (fc : List Char → Option (List Char))
    (cmd : List Char)
    (h1 : List.isPrefixOf (("-l").toList) cmd = false)
    (h2 : List.isPrefixOf (("%none").toList) cmd = false) :
    handleRequest ⟨none, fc⟩ cmd = ([Out.framed (("nof\n").toList)], none) := by
  unfold handleRequest
  rw [if_neg (by simp only [h1]; exact Bool.false_ne_true), if_pos h2, if_neg (by simp [inDir])]

/-- Instance of Claim C10 for a file whose content is readable even though
the directory cannot be enumerated. -/
theorem C10_membership_opendir_failure_witness :
    handleRequest ⟨none, fun _ => some (("data").toList)⟩ (("a.txt").toList) =
      ([Out.framed (("nof\n").toList)], none) :=
  C10_membership_opendir_failure _ _ (by decide) (by decide)

end FtServer
